import Mathlib

/-!
# Verification of the mbed TLS MPS record layer (Layer 2) headers

This development embeds the data model and the executable parts of
`include/mbedtls/mps/common.h` and `include/mbedtls/mps/layer2.h`:

* the record content-type configuration bitmasks and the function
  `mps_l2_config_add_type` (layer2.h, lines 1056-1077);
* the big-endian serialization macros `MPS_READ/WRITE_UINTn_BE`
  (common.h, lines 334-419);
* the abstract Layer 2 state (writer state, reader slots, flush/clearing
  flags, epoch window) together with a transition relation modelling the
  Layer 2 API calls, against which the state invariants stated in
  layer2.h (the `MPS_L2_INV_...` macros) are proved.

The bodies of `mps_l2_read_start`, `mps_l2_read_done`,
`mps_l2_write_start`, `mps_l2_write_done`, `mps_l2_write_flush`,
`mps_l2_epoch_add` (a `layer2.c`) are not part of the repository snapshot;
their state transitions are modelled from the specification where needed.
-/

namespace MPS

/-- `MBEDTLS_MPS_MSG_MAX` from common.h, line 226: the bound used by
`mps_l2_config_add_type` to reject record content types. -/
def MBEDTLS_MPS_MSG_MAX : Nat := 31

/-- `MBEDTLS_MPS_EPOCH_MAX` from common.h, line 246: the first unusable
epoch ID. -/
def MBEDTLS_MPS_EPOCH_MAX : Int := 100

/-- `MPS_L2_EPOCH_WINDOW_SIZE` from layer2.h, line 57: the number of
epochs Layer 2 can handle simultaneously. -/
def MPS_L2_EPOCH_WINDOW_SIZE : Nat := 2

/-- Result status of an MPS call; `ok` stands for the return value `0`,
the error cases stand for the negative error codes `MPS_ERR_INVALID_RECORD`
and `MPS_ERR_INVALID_ARGS` (whose numeric values live in the absent
`error.h`). -/
inductive MpsStatus where
  | ok
  | errInvalidRecord
  | errInvalidArgs
  deriving DecidableEq, Repr

/-- The four content-type bitmasks of `struct mbedtls_mps_l2_config`
(layer2.h, lines 357-393).  Each is a 32-bit flag word indexed by record
content type; bit n set means content type n has the property.  Since
`mps_l2_config_add_type` only ever sets bits below
`MBEDTLS_MPS_MSG_MAX` = 31, the `uint32_t` arithmetic never overflows and
is embedded as arithmetic on `Nat`. -/
structure L2Config where
  type_flag : Nat
  pause_flag : Nat
  merge_flag : Nat
  empty_flag : Nat
  deriving DecidableEq, Repr

/-- `mps_l2_config_add_type` (layer2.h, lines 1056-1077), embedded as a
pure function from the configuration to a status together with the
(possibly updated) configuration:

    if( type >= MBEDTLS_MPS_MSG_MAX )
        return( MPS_ERR_INVALID_RECORD );
    mask = ( (uint32_t) 1u << type );
    if( ctx->conf.type_flag & mask )
        return( MPS_ERR_INVALID_ARGS );
    ctx->conf.type_flag |= mask;
    ctx->conf.pause_flag |= ( pausing == 1 ) * mask;
    ctx->conf.merge_flag |= ( merging == 1 ) * mask;
    ctx->conf.empty_flag |= ( empty   == 1 ) * mask;
    return( 0 );

The C comparison `( pausing == 1 )` evaluates to the integer 1 or 0,
embedded as `(if pausing = 1 then 1 else 0)`. -/
def mps_l2_config_add_type (cfg : L2Config) (type pausing merging empty : Nat) :
    MpsStatus × L2Config :=
  if MBEDTLS_MPS_MSG_MAX ≤ type then
    (.errInvalidRecord, cfg)
  else
    let mask : Nat := 1 <<< type
    if cfg.type_flag &&& mask ≠ 0 then
      (.errInvalidArgs, cfg)
    else
      (.ok,
        { type_flag := cfg.type_flag ||| mask
          pause_flag := cfg.pause_flag ||| (if pausing = 1 then 1 else 0) * mask
          merge_flag := cfg.merge_flag ||| (if merging = 1 then 1 else 0) * mask
          empty_flag := cfg.empty_flag ||| (if empty = 1 then 1 else 0) * mask })

/-- The all-zero configuration every Layer 2 context starts from: no
content type is configured before `mps_l2_config_add_type` is called. -/
def initL2Config : L2Config :=
  { type_flag := 0, pause_flag := 0, merge_flag := 0, empty_flag := 0 }

/-- The configurations reachable from the all-zero configuration by a
sequence of successful `mps_l2_config_add_type` calls. -/
inductive ConfigReachable : L2Config → Prop where
  | base : ConfigReachable initL2Config
  | step {c : L2Config} (t p m e : Nat) :
      ConfigReachable c →
      (mps_l2_config_add_type c t p m e).1 = .ok →
      ConfigReachable (mps_l2_config_add_type c t p m e).2

/-! ## Big-endian serialization macros (common.h, lines 334-419)

A byte buffer is embedded as a `List Nat` of byte values; writing a value
produces the byte list stored at `dst[0], dst[1], ...`, and reading takes
the byte list starting at `src`.  The C shift/mask arithmetic is kept
verbatim on `Nat` (all intermediate values fit the C types used). -/

/-- `MPS_WRITE_UINT8_BE`: stores the single byte of a `uint8_t` value. -/
def MPS_WRITE_UINT8_BE (v : Nat) : List Nat :=
  [ v ]

/-- `MPS_READ_UINT8_BE`: `*dst = src[0]`. -/
def MPS_READ_UINT8_BE (src : List Nat) : Nat :=
  src.getD 0 0

/-- `MPS_WRITE_UINT16_BE`: `dst[0] = (v >> 8) & 0xFF; dst[1] = (v >> 0) & 0xFF`. -/
def MPS_WRITE_UINT16_BE (v : Nat) : List Nat :=
  [ (v >>> 8) &&& 0xFF, (v >>> 0) &&& 0xFF ]

/-- `MPS_READ_UINT16_BE`: `*dst = (src[0] << 8) + (src[1] << 0)`. -/
def MPS_READ_UINT16_BE (src : List Nat) : Nat :=
  (src.getD 0 0 <<< 8) + (src.getD 1 0 <<< 0)

/-- `MPS_WRITE_UINT24_BE`. -/
def MPS_WRITE_UINT24_BE (v : Nat) : List Nat :=
  [ (v >>> 16) &&& 0xFF, (v >>> 8) &&& 0xFF, (v >>> 0) &&& 0xFF ]

/-- `MPS_READ_UINT24_BE`. -/
def MPS_READ_UINT24_BE (src : List Nat) : Nat :=
  (src.getD 0 0 <<< 16) + (src.getD 1 0 <<< 8) + (src.getD 2 0 <<< 0)

/-- `MPS_WRITE_UINT32_BE`. -/
def MPS_WRITE_UINT32_BE (v : Nat) : List Nat :=
  [ (v >>> 24) &&& 0xFF, (v >>> 16) &&& 0xFF,
    (v >>> 8) &&& 0xFF, (v >>> 0) &&& 0xFF ]

/-- `MPS_READ_UINT32_BE`. -/
def MPS_READ_UINT32_BE (src : List Nat) : Nat :=
  (src.getD 0 0 <<< 24) + (src.getD 1 0 <<< 16) +
  (src.getD 2 0 <<< 8) + (src.getD 3 0 <<< 0)

/-- `MPS_WRITE_UINT48_BE`. -/
def MPS_WRITE_UINT48_BE (v : Nat) : List Nat :=
  [ (v >>> 40) &&& 0xFF, (v >>> 32) &&& 0xFF, (v >>> 24) &&& 0xFF,
    (v >>> 16) &&& 0xFF, (v >>> 8) &&& 0xFF, (v >>> 0) &&& 0xFF ]

/-- `MPS_READ_UINT48_BE`. -/
def MPS_READ_UINT48_BE (src : List Nat) : Nat :=
  (src.getD 0 0 <<< 40) + (src.getD 1 0 <<< 32) + (src.getD 2 0 <<< 24) +
  (src.getD 3 0 <<< 16) + (src.getD 4 0 <<< 8) + (src.getD 5 0 <<< 0)

/-! ## The abstract Layer 2 state and its transitions -/

/-- `mbedtls_mps_l2_writer_state` (layer2.h, lines 179-183). -/
inductive L2WriterState where
  | unset
  | queueing
  | internal
  | external
  deriving DecidableEq, Repr

/-- `mbedtls_mps_l2_reader_state` (layer2.h, lines 157-161). -/
inductive L2ReaderState where
  | unset
  | paused
  | internal
  | external
  deriving DecidableEq, Repr

/-- The abstract state of a Layer 2 context (`struct mbedtls_mps_l2`,
layer2.h, lines 449-833), restricted to the fields the invariant macros
speak about:

* `conf` — the content-type bitmasks of `ctx->conf`;
* `outState` / `outType` — `ctx->out.state` and `ctx->out.writer.type`;
* `clearing` / `flush` — `ctx->out.clearing` and `ctx->out.flush`;
* `readerType i` — `ctx->in.readers[i].type`;
* `activeIdx` / `pausedIdx` — which of the two reader slots
  `ctx->in.active` and `ctx->in.paused` point to;
* `activeState` / `pausedState` — `ctx->in.active_state` and
  `ctx->in.paused_state`;
* `epochBase` / `epochNext` — `ctx->epochs.base` (a signed epoch ID) and
  `ctx->epochs.next`. -/
structure L2State where
  conf : L2Config
  outState : L2WriterState
  outType : Nat
  clearing : Bool
  flush : Bool
  readerType : Fin 2 → Nat
  activeIdx : Fin 2
  pausedIdx : Fin 2
  activeState : L2ReaderState
  pausedState : L2ReaderState
  epochBase : Int
  epochNext : Nat

/-- Modelled from the spec: the state established by `mps_l2_init`
(layer2.h, line 985; the body lives in the absent `layer2.c`).  Per the
lifecycle section of the spec, a fresh context has no configured content
types, no outgoing writer, no incoming reader bound, clear flags, and an
empty epoch window based at epoch 0 with `active = &readers[0]`,
`paused = &readers[1]`. -/
def mps_l2_init : L2State :=
  { conf := initL2Config
    outState := .unset
    outType := 0
    clearing := false
    flush := false
    readerType := fun _ => 0
    activeIdx := 0
    pausedIdx := 1
    activeState := .unset
    pausedState := .unset
    epochBase := 0
    epochNext := 0 }

/-- Modelled from the spec: the state transitions performed by the Layer 2
API calls between two stable states.  The implementations of
`mps_l2_read_start`, `mps_l2_read_done`, `mps_l2_write_start`,
`mps_l2_write_done`, `mps_l2_write_flush` and `mps_l2_epoch_add` are not
part of the repository snapshot (only their declarations and contracts in
layer2.h are), so each constructor captures one successful or suspended
call as described in the specification's incoming path, outgoing path and
epoch management sections:

* `configAddType` — a successful `mps_l2_config_add_type` (this one is
  the real code from layer2.h, lines 1056-1077);
* `writeStartOk` — `mps_l2_write_start` succeeding after draining any
  pending flush/clearing work: the requested type must be configured, the
  writer becomes EXTERNAL with that type, `clearing` and `flush` are
  cleared because the drain completed;
* `writeStartPack` — `mps_l2_write_start` reopening a still-internal
  record of a mergeable type (packing);
* `writeStartBlockedDispatch` — `mps_l2_write_start` (or
  `mps_l2_write_flush`) returning WANT_WRITE after dispatching the queued
  remainder into a record but before Layer 1 finished flushing: the queue
  empties (QUEUEING to UNSET) and `clearing` is set;
* `writeStartBlockedClear` — the same suspension before any queue
  progress: only `clearing` is set;
* `writeDoneDispatch` — `mps_l2_write_done` dispatching the record and
  returning the writer to UNSET (possibly leaving `clearing` set for the
  pending Layer 1 flush);
* `writeDonePause` — `mps_l2_write_done` finding uncommitted bytes of a
  pausable type: they move to the queue, the writer becomes QUEUEING and
  `flush` is set;
* `writeDonePack` — an early `mps_l2_write_done` keeping the record open
  (INTERNAL) for packing of a mergeable type;
* `writeFlushStart` — `mps_l2_write_flush` setting the `flush` flag
  (legal only while no record is being written);
* `writeFlushOk` — a flush completing: queue drained, flags cleared;
* `readStartReuse` — `mps_l2_read_start` handing out the
  already-internal active reader;
* `readStartFresh` — `mps_l2_read_start` binding the active slot to a
  new record of a configured type (which, per the routing order, differs
  from a paused reader's type, since that case resumes instead);
* `readStartResume` — `mps_l2_read_start` resuming the paused reader on
  a record of its type: the slots swap roles;
* `readStartSwap` — `mps_l2_read_start` pausing the active reader (its
  pausable type has data held back) and binding the free slot to a record
  of a different pausable type: the slots swap roles;
* `readDoneConsumed` — `mps_l2_read_done` on a fully drained record;
* `readDonePack` — `mps_l2_read_done` with data left in a record of a
  mergeable type: the reader stays INTERNAL;
* `epochAdd` — `mps_l2_epoch_add` taking a free slot of the window;
* `epochAddSlide` — `mps_l2_epoch_add` on a full window first sliding
  the window base past `k` garbage-collected epochs (epoch IDs never
  reach `MBEDTLS_MPS_EPOCH_MAX`), then taking the freed slot. -/
inductive L2Step : L2State → L2State → Prop where
  | configAddType (s : L2State) (t p m e : Nat)
      (hok : (mps_l2_config_add_type s.conf t p m e).1 = .ok) :
      L2Step s { s with conf := (mps_l2_config_add_type s.conf t p m e).2 }
  | writeStartOk (s : L2State) (t : Nat)
      (hs : s.outState = .unset ∨ s.outState = .queueing)
      (ht : s.conf.type_flag.testBit t = true) :
      L2Step s { s with outState := .external, outType := t,
                        clearing := false, flush := false }
  | writeStartPack (s : L2State)
      (hs : s.outState = .internal)
      (hm : s.conf.merge_flag.testBit s.outType = true) :
      L2Step s { s with outState := .external }
  | writeStartBlockedDispatch (s : L2State)
      (hs : s.outState = .queueing) :
      L2Step s { s with outState := .unset, clearing := true }
  | writeStartBlockedClear (s : L2State)
      (hs : s.outState = .unset ∨ s.outState = .queueing) :
      L2Step s { s with clearing := true }
  | writeDoneDispatch (s : L2State) (c : Bool)
      (hs : s.outState = .external) :
      L2Step s { s with outState := .unset, clearing := c }
  | writeDonePause (s : L2State)
      (hs : s.outState = .external)
      (hp : s.conf.pause_flag.testBit s.outType = true) :
      L2Step s { s with outState := .queueing, flush := true }
  | writeDonePack (s : L2State)
      (hs : s.outState = .external)
      (hm : s.conf.merge_flag.testBit s.outType = true) :
      L2Step s { s with outState := .internal }
  | writeFlushStart (s : L2State)
      (hs : s.outState = .unset ∨ s.outState = .queueing) :
      L2Step s { s with flush := true }
  | writeFlushOk (s : L2State)
      (hs : s.outState = .unset ∨ s.outState = .queueing) :
      L2Step s { s with outState := .unset, flush := false, clearing := false }
  | readStartReuse (s : L2State)
      (hs : s.activeState = .internal) :
      L2Step s { s with activeState := .external }
  | readStartFresh (s : L2State) (t : Nat)
      (hs : s.activeState = .unset)
      (ht : s.conf.type_flag.testBit t = true)
      (hne : s.pausedState = .paused → s.readerType s.pausedIdx ≠ t) :
      L2Step s { s with readerType := Function.update s.readerType s.activeIdx t,
                        activeState := .external }
  | readStartResume (s : L2State)
      (hs : s.activeState = .unset)
      (hp : s.pausedState = .paused) :
      L2Step s { s with activeIdx := s.pausedIdx, pausedIdx := s.activeIdx,
                        activeState := .external, pausedState := .unset }
  | readStartSwap (s : L2State) (t : Nat)
      (hs : s.activeState = .unset)
      (hp : s.pausedState = .unset)
      (hpa : s.conf.pause_flag.testBit (s.readerType s.activeIdx) = true)
      (ht : s.conf.type_flag.testBit t = true)
      (hpt : s.conf.pause_flag.testBit t = true)
      (hne : t ≠ s.readerType s.activeIdx) :
      L2Step s { s with activeIdx := s.pausedIdx, pausedIdx := s.activeIdx,
                        readerType := Function.update s.readerType s.pausedIdx t,
                        activeState := .external, pausedState := .paused }
  | readDoneConsumed (s : L2State)
      (hs : s.activeState = .external) :
      L2Step s { s with activeState := .unset }
  | readDonePack (s : L2State)
      (hs : s.activeState = .external)
      (hm : s.conf.merge_flag.testBit (s.readerType s.activeIdx) = true) :
      L2Step s { s with activeState := .internal }
  | epochAdd (s : L2State)
      (hn : s.epochNext < MPS_L2_EPOCH_WINDOW_SIZE) :
      L2Step s { s with epochNext := s.epochNext + 1 }
  | epochAddSlide (s : L2State) (k : Nat)
      (hn : s.epochNext = MPS_L2_EPOCH_WINDOW_SIZE)
      (hk1 : 1 ≤ k) (hk2 : k ≤ MPS_L2_EPOCH_WINDOW_SIZE)
      (hb : s.epochBase + k ≤ MBEDTLS_MPS_EPOCH_MAX - MPS_L2_EPOCH_WINDOW_SIZE) :
      L2Step s { s with epochBase := s.epochBase + k,
                        epochNext := MPS_L2_EPOCH_WINDOW_SIZE - k + 1 }

/-- The Layer 2 states reachable between API calls: the image of the
initial state under finitely many API transitions. -/
inductive L2Reachable : L2State → Prop where
  | base : L2Reachable mps_l2_init
  | step {s s2 : L2State} : L2Reachable s → L2Step s s2 → L2Reachable s2

/-! ## Concrete sample states used by the witnesses -/

/-- The configuration after registering handshake messages (type 22,
pausable and mergeable, empty records forbidden). -/
def demoConfig1 : L2Config := (mps_l2_config_add_type initL2Config 22 1 1 0).2

/-- The Layer 2 state after `mps_l2_config_add_type(ctx, 22, 1, 1, 0)`. -/
def l2StateDemo1 : L2State :=
  { mps_l2_init with conf := (mps_l2_config_add_type mps_l2_init.conf 22 1 1 0).2 }

/-- `l2StateDemo1` after a successful `mps_l2_write_start` for type 22. -/
def l2StateDemo2 : L2State :=
  { l2StateDemo1 with outState := .external, outType := 22,
                      clearing := false, flush := false }

/-- `l2StateDemo2` after `mps_l2_write_done` found uncommitted bytes of
the pausable type 22: the writer queues and `flush` is set. -/
def l2StateDemo3 : L2State :=
  { l2StateDemo2 with outState := .queueing, flush := true }

/-- `l2StateDemo1` after also registering content type 23 (pausable,
non-mergeable, empty records forbidden). -/
def l2StateDemo4 : L2State :=
  { l2StateDemo1 with
      conf := (mps_l2_config_add_type l2StateDemo1.conf 23 1 0 0).2 }

/-- `l2StateDemo4` after `mps_l2_read_start` bound the active reader to a
record of type 22. -/
def l2StateDemo5 : L2State :=
  { l2StateDemo4 with
      readerType :=
        Function.update l2StateDemo4.readerType l2StateDemo4.activeIdx 22,
      activeState := .external }

/-- `l2StateDemo5` after `mps_l2_read_done` drained the record. -/
def l2StateDemo6 : L2State :=
  { l2StateDemo5 with activeState := .unset }

/-- `l2StateDemo6` after `mps_l2_read_start` on a record of type 23
paused the type-22 reader and bound the free slot: the reader slots swap
roles. -/
def l2StateDemo7 : L2State :=
  { l2StateDemo6 with
      activeIdx := l2StateDemo6.pausedIdx,
      pausedIdx := l2StateDemo6.activeIdx,
      readerType :=
        Function.update l2StateDemo6.readerType l2StateDemo6.pausedIdx 23,
      activeState := .external, pausedState := .paused }

/-- `l2StateDemo2` after `mps_l2_epoch_add` took the first epoch slot. -/
def l2StateDemo8 : L2State :=
  { l2StateDemo2 with epochNext := l2StateDemo2.epochNext + 1 }

/-! ## Basic facts about `mps_l2_config_add_type` -/

theorem add_type_ok_iff (cfg : L2Config) (t p m e : Nat) :
    (mps_l2_config_add_type cfg t p m e).1 = .ok ↔
      t < MBEDTLS_MPS_MSG_MAX ∧ cfg.type_flag &&& (1 <<< t) = 0 := by
  by_cases h1 : MBEDTLS_MPS_MSG_MAX ≤ t
  · simp only [mps_l2_config_add_type, if_pos h1]
    constructor
    · intro hc; exact absurd hc (by simp)
    · intro hc; omega
  · by_cases h2 : cfg.type_flag &&& (1 <<< t) = 0
    · simp only [mps_l2_config_add_type, if_neg h1]
      rw [if_neg (by simpa using h2)]
      exact ⟨fun _ => ⟨by omega, h2⟩, fun _ => rfl⟩
    · simp only [mps_l2_config_add_type, if_neg h1]
      rw [if_pos (by simpa using h2)]
      constructor
      · intro hc; exact absurd hc (by simp)
      · intro hc; exact absurd hc.2 h2

theorem add_type_ok_fields {cfg : L2Config} {t p m e : Nat}
    (h : (mps_l2_config_add_type cfg t p m e).1 = .ok) :
    (mps_l2_config_add_type cfg t p m e).2 =
      { type_flag := cfg.type_flag ||| (1 <<< t)
        pause_flag := cfg.pause_flag ||| (if p = 1 then 1 else 0) * (1 <<< t)
        merge_flag := cfg.merge_flag ||| (if m = 1 then 1 else 0) * (1 <<< t)
        empty_flag := cfg.empty_flag ||| (if e = 1 then 1 else 0) * (1 <<< t) } := by
  have hok := (add_type_ok_iff cfg t p m e).mp h
  simp only [mps_l2_config_add_type, if_neg (by omega : ¬ MBEDTLS_MPS_MSG_MAX ≤ t)]
  rw [if_neg (by simpa using hok.2)]

theorem add_type_err_eq {cfg : L2Config} {t p m e : Nat}
    (h : (mps_l2_config_add_type cfg t p m e).1 ≠ .ok) :
    (mps_l2_config_add_type cfg t p m e).2 = cfg := by
  by_cases h1 : MBEDTLS_MPS_MSG_MAX ≤ t
  · simp only [mps_l2_config_add_type, if_pos h1]
  · by_cases h2 : cfg.type_flag &&& (1 <<< t) = 0
    · exact absurd ((add_type_ok_iff cfg t p m e).mpr ⟨by omega, h2⟩) h
    · simp only [mps_l2_config_add_type, if_neg h1]
      rw [if_pos (by simpa using h2)]

theorem and_shiftLeft_eq_zero_iff (x t : Nat) :
    x &&& (1 <<< t) = 0 ↔ x.testBit t = false := by
  rw [Nat.one_shiftLeft, Nat.and_two_pow]
  cases hb : x.testBit t
  · simp
  · simp only [Bool.toNat_true, one_mul]
    constructor
    · intro hc; exact absurd hc (Nat.two_pow_pos t).ne'
    · intro hc; exact absurd hc (by simp)

/-- Bits at position ≥ 31 are never set in the masks of a reachable
configuration, since `mps_l2_config_add_type` only sets bits below
`MBEDTLS_MPS_MSG_MAX`. -/
theorem config_reachable_bits_lt {c : L2Config} (h : ConfigReachable c) :
    ∀ i, MBEDTLS_MPS_MSG_MAX ≤ i → c.type_flag.testBit i = false := by
  induction h with
  | base => intro i _; simp [initL2Config]
  | step t p m e hr hok ih =>
      intro i hi
      have hfields := add_type_ok_fields hok
      have htlt := ((add_type_ok_iff _ t p m e).mp hok).1
      rw [hfields]
      simp only [Nat.testBit_or]
      rw [ih i hi, Nat.one_shiftLeft,
        Nat.testBit_two_pow_of_ne (by omega)]
      rfl

/-- Adjoining (a masked copy of) `mval` to a subset of `T` while adjoining
`mval` to `T` preserves the subset property expressed through `&&&`. -/
theorem and_or_subset {a T mval z : Nat} (hsub : a &&& T = a)
    (hz : z = 0 ∨ z = mval) : (a ||| z) &&& (T ||| mval) = a ||| z := by
  apply Nat.eq_of_testBit_eq
  intro i
  have hi := congrArg (fun n => n.testBit i) hsub
  simp only [Nat.testBit_and] at hi
  rcases hz with hz | hz <;> subst hz <;>
    simp only [Nat.or_zero, Nat.testBit_and, Nat.testBit_or] <;>
    cases ha : a.testBit i <;> cases hT : T.testBit i <;> simp_all

/-- Helper: the three auxiliary bitmasks stay subsets of `type_flag` in
every reachable configuration (in the `&&&` form used by the
`MPS_L2_CONF_INV_..._FLAG` macros). -/
theorem config_subsets_of_reachable {c : L2Config} (h : ConfigReachable c) :
    c.pause_flag &&& c.type_flag = c.pause_flag ∧
    c.merge_flag &&& c.type_flag = c.merge_flag ∧
    c.empty_flag &&& c.type_flag = c.empty_flag := by
  induction h with
  | base => exact ⟨rfl, rfl, rfl⟩
  | step t p m e hr hok ih =>
      rw [add_type_ok_fields hok]
      refine ⟨?_, ?_, ?_⟩
      · exact and_or_subset ih.1 (by by_cases hp : p = 1 <;> simp [hp])
      · exact and_or_subset ih.2.1 (by by_cases hm : m = 1 <;> simp [hm])
      · exact and_or_subset ih.2.2 (by by_cases he : e = 1 <;> simp [he])

/-- Helper: `demoConfig1` is a reachable configuration. -/
theorem demoConfig1_reachable : ConfigReachable demoConfig1 :=
  ConfigReachable.step 22 1 1 0 ConfigReachable.base (by decide)

/-! ## Claims about `mps_l2_config_add_type` -/

/-- C1 (counterexample): the claim asserts that a fresh content type
`t = 31` is accepted, but `mps_l2_config_add_type` rejects every type
`>= MBEDTLS_MPS_MSG_MAX = 31`: on the all-zero configuration, whose bit
31 is clear, the call for type 31 returns `MPS_ERR_INVALID_RECORD`
instead of 0. -/
theorem add_type_type31_rejected :
    initL2Config.type_flag.testBit 31 = false ∧
    (mps_l2_config_add_type initL2Config 31 0 0 0).1 = .errInvalidRecord ∧
    (mps_l2_config_add_type initL2Config 31 0 0 0).1 ≠ .ok := by
  refine ⟨by decide, by decide, by decide⟩

/-- C1 (amended): content types accepted by `mps_l2_config_add_type` are
exactly those in `[0, 31)`: for every `t < MBEDTLS_MPS_MSG_MAX = 31`
whose bit is not yet set in `type_flag`, the call succeeds (returns 0 and
sets bit `t` of `type_flag`), and for every `t >= 31` (including 31
itself) it fails with `MPS_ERR_INVALID_RECORD`. -/
theorem add_type_accepts_exactly_below_msg_max (cfg : L2Config)
    (t p m e : Nat) :
    (t < MBEDTLS_MPS_MSG_MAX → cfg.type_flag.testBit t = false →
      (mps_l2_config_add_type cfg t p m e).1 = .ok ∧
      (mps_l2_config_add_type cfg t p m e).2.type_flag.testBit t = true) ∧
    (MBEDTLS_MPS_MSG_MAX ≤ t →
      (mps_l2_config_add_type cfg t p m e).1 = .errInvalidRecord) := by
  constructor
  · intro ht hfresh
    have hok : (mps_l2_config_add_type cfg t p m e).1 = .ok :=
      (add_type_ok_iff cfg t p m e).mpr
        ⟨ht, (and_shiftLeft_eq_zero_iff _ _).mpr hfresh⟩
    refine ⟨hok, ?_⟩
    rw [add_type_ok_fields hok]
    simp only [Nat.testBit_or, Nat.one_shiftLeft, Nat.testBit_two_pow_self,
      Bool.or_true]
  · intro ht
    simp only [mps_l2_config_add_type, if_pos ht]

/-- C1 (witness for the amended claim): type 22 is fresh in the all-zero
configuration and gets registered; type 31 is rejected with
`MPS_ERR_INVALID_RECORD`. -/
theorem add_type_accepts_exactly_below_msg_max_witness :
    ((mps_l2_config_add_type initL2Config 22 0 0 0).1 = .ok ∧
     (mps_l2_config_add_type initL2Config 22 0 0 0).2.type_flag.testBit 22 =
       true) ∧
    (mps_l2_config_add_type initL2Config 31 0 0 0).1 = .errInvalidRecord :=
  ⟨(add_type_accepts_exactly_below_msg_max initL2Config 22 0 0 0).1
      (by decide) (by decide),
   (add_type_accepts_exactly_below_msg_max initL2Config 31 0 0 0).2
      (by decide)⟩

/-- C3: after every sequence of successful `mps_l2_config_add_type` calls
starting from the all-zero configuration, `pause_flag`, `merge_flag` and
`empty_flag` remain subsets of `type_flag` (the `MPS_L2_CONF_INV_..._FLAG`
invariants of layer2.h, lines 395-402). -/
theorem reachable_config_flags_subset {c : L2Config}
    (h : ConfigReachable c) :
    c.pause_flag &&& c.type_flag = c.pause_flag ∧
    c.merge_flag &&& c.type_flag = c.merge_flag ∧
    c.empty_flag &&& c.type_flag = c.empty_flag :=
  config_subsets_of_reachable h

/-- C3 (witness): the subset invariants hold for the concrete reachable
configuration `demoConfig1`. -/
theorem reachable_config_flags_subset_witness :
    demoConfig1.pause_flag &&& demoConfig1.type_flag = demoConfig1.pause_flag ∧
    demoConfig1.merge_flag &&& demoConfig1.type_flag = demoConfig1.merge_flag ∧
    demoConfig1.empty_flag &&& demoConfig1.type_flag = demoConfig1.empty_flag :=
  reachable_config_flags_subset demoConfig1_reachable

/-- C6: in any configuration reachable by `mps_l2_config_add_type` calls,
adding a content type whose `type_flag` bit is already set fails with
`MPS_ERR_INVALID_ARGS`. -/
theorem add_type_duplicate_invalid_args {c : L2Config}
    (hr : ConfigReachable c) (t p m e : Nat)
    (hbit : c.type_flag.testBit t = true) :
    (mps_l2_config_add_type c t p m e).1 = .errInvalidArgs := by
  have ht : t < MBEDTLS_MPS_MSG_MAX := by
    by_contra hge
    have hz := config_reachable_bits_lt hr t (by omega)
    rw [hz] at hbit
    exact absurd hbit (by simp)
  have hand : ¬ c.type_flag &&& (1 <<< t) = 0 := by
    intro h0
    rw [(and_shiftLeft_eq_zero_iff _ _).mp h0] at hbit
    exact absurd hbit (by simp)
  simp only [mps_l2_config_add_type,
    if_neg (by omega : ¬ MBEDTLS_MPS_MSG_MAX ≤ t)]
  rw [if_pos (by simpa using hand)]

/-- C6 (witness): re-adding type 22 to `demoConfig1`, which already
contains it, fails with `MPS_ERR_INVALID_ARGS`. -/
theorem add_type_duplicate_invalid_args_witness :
    (mps_l2_config_add_type demoConfig1 22 0 0 0).1 = .errInvalidArgs :=
  add_type_duplicate_invalid_args demoConfig1_reachable 22 0 0 0 (by decide)

/-- C9: whenever `mps_l2_config_add_type` returns an error, the four
bitmasks `type_flag`, `pause_flag`, `merge_flag`, `empty_flag` are
unchanged. -/
theorem add_type_error_leaves_config_unchanged (cfg : L2Config)
    (t p m e : Nat)
    (h : (mps_l2_config_add_type cfg t p m e).1 ≠ .ok) :
    (mps_l2_config_add_type cfg t p m e).2.type_flag = cfg.type_flag ∧
    (mps_l2_config_add_type cfg t p m e).2.pause_flag = cfg.pause_flag ∧
    (mps_l2_config_add_type cfg t p m e).2.merge_flag = cfg.merge_flag ∧
    (mps_l2_config_add_type cfg t p m e).2.empty_flag = cfg.empty_flag := by
  rw [add_type_err_eq h]
  exact ⟨rfl, rfl, rfl, rfl⟩

/-- C9 (witness): the failing call for type 31 on the configuration
`demoConfig1` leaves all four bitmasks unchanged. -/
theorem add_type_error_leaves_config_unchanged_witness :
    (mps_l2_config_add_type demoConfig1 31 1 1 1).2.type_flag =
      demoConfig1.type_flag ∧
    (mps_l2_config_add_type demoConfig1 31 1 1 1).2.pause_flag =
      demoConfig1.pause_flag ∧
    (mps_l2_config_add_type demoConfig1 31 1 1 1).2.merge_flag =
      demoConfig1.merge_flag ∧
    (mps_l2_config_add_type demoConfig1 31 1 1 1).2.empty_flag =
      demoConfig1.empty_flag :=
  add_type_error_leaves_config_unchanged demoConfig1 31 1 1 1 (by decide)

/-- C10: registering a fresh in-range content type `t` succeeds and sets
the `pause_flag` (resp. `merge_flag`, `empty_flag`) bit for `t` exactly
when the corresponding argument equals 1; any other argument value
(including 2) leaves that flag clear while `t` is still registered in
`type_flag` and the call still returns 0. -/
theorem add_type_flag_iff_arg_one {c : L2Config} (hr : ConfigReachable c)
    (t p m e : Nat) (ht : t < MBEDTLS_MPS_MSG_MAX)
    (hfresh : c.type_flag.testBit t = false) :
    (mps_l2_config_add_type c t p m e).1 = .ok ∧
    (mps_l2_config_add_type c t p m e).2.type_flag.testBit t = true ∧
    ((mps_l2_config_add_type c t p m e).2.pause_flag.testBit t = true ↔
      p = 1) ∧
    ((mps_l2_config_add_type c t p m e).2.merge_flag.testBit t = true ↔
      m = 1) ∧
    ((mps_l2_config_add_type c t p m e).2.empty_flag.testBit t = true ↔
      e = 1) := by
  have hok : (mps_l2_config_add_type c t p m e).1 = .ok :=
    (add_type_ok_iff c t p m e).mpr
      ⟨ht, (and_shiftLeft_eq_zero_iff _ _).mpr hfresh⟩
  have hsub := config_subsets_of_reachable hr
  have hbitsub : ∀ a : Nat, a &&& c.type_flag = a → a.testBit t = false := by
    intro a hs
    have hi := congrArg (fun n => n.testBit t) hs
    simp only [Nat.testBit_and, hfresh, Bool.and_false] at hi
    exact hi.symm
  have hpf := hbitsub _ hsub.1
  have hmf := hbitsub _ hsub.2.1
  have hef := hbitsub _ hsub.2.2
  refine ⟨hok, ?_, ?_, ?_, ?_⟩ <;> rw [add_type_ok_fields hok]
  · simp only [Nat.testBit_or, Nat.one_shiftLeft, Nat.testBit_two_pow_self,
      Bool.or_true]
  · by_cases hp : p = 1 <;>
      simp [hp, Nat.testBit_or, hpf, Nat.one_shiftLeft,
        Nat.testBit_two_pow_self]
  · by_cases hm : m = 1 <;>
      simp [hm, Nat.testBit_or, hmf, Nat.one_shiftLeft,
        Nat.testBit_two_pow_self]
  · by_cases he : e = 1 <;>
      simp [he, Nat.testBit_or, hef, Nat.one_shiftLeft,
        Nat.testBit_two_pow_self]

/-- C10 (witness): adding type 23 to `demoConfig1` with `pausing = 2`,
`merging = 1`, `empty = 0` returns 0, registers the type, enables only
the merge flag, and in particular the out-of-spec value 2 does not enable
pausing. -/
theorem add_type_flag_iff_arg_one_witness :
    (mps_l2_config_add_type demoConfig1 23 2 1 0).1 = .ok ∧
    (mps_l2_config_add_type demoConfig1 23 2 1 0).2.type_flag.testBit 23 =
      true ∧
    ((mps_l2_config_add_type demoConfig1 23 2 1 0).2.pause_flag.testBit 23 =
      true ↔ (2 : Nat) = 1) ∧
    ((mps_l2_config_add_type demoConfig1 23 2 1 0).2.merge_flag.testBit 23 =
      true ↔ (1 : Nat) = 1) ∧
    ((mps_l2_config_add_type demoConfig1 23 2 1 0).2.empty_flag.testBit 23 =
      true ↔ (0 : Nat) = 1) :=
  add_type_flag_iff_arg_one demoConfig1_reachable 23 2 1 0 (by decide)
    (by decide)

/-! ## Claims about the serialization macros -/

theorem and_0xFF_eq_mod (x : Nat) : x &&& 0xFF = x % 256 := by
  have h := Nat.and_pow_two_sub_one_eq_mod x 8
  norm_num at h
  exact h

theorem uint16_be_spec (v : Nat) (h : v < 2 ^ 16) :
    MPS_READ_UINT16_BE (MPS_WRITE_UINT16_BE v) = v ∧
    MPS_WRITE_UINT16_BE v = [v / 2 ^ 8 % 2 ^ 8, v % 2 ^ 8] := by
  have hr : MPS_READ_UINT16_BE (MPS_WRITE_UINT16_BE v) =
      (((v >>> 8) &&& 0xFF) <<< 8) + (((v >>> 0) &&& 0xFF) <<< 0) := rfl
  constructor
  · rw [hr]
    simp only [Nat.shiftRight_eq_div_pow, and_0xFF_eq_mod, Nat.shiftLeft_eq]
    norm_num
    omega
  · show [(v >>> 8) &&& 0xFF, (v >>> 0) &&& 0xFF] = _
    simp only [Nat.shiftRight_eq_div_pow, and_0xFF_eq_mod]
    norm_num

theorem uint24_be_spec (v : Nat) (h : v < 2 ^ 24) :
    MPS_READ_UINT24_BE (MPS_WRITE_UINT24_BE v) = v ∧
    MPS_WRITE_UINT24_BE v =
      [v / 2 ^ 16 % 2 ^ 8, v / 2 ^ 8 % 2 ^ 8, v % 2 ^ 8] := by
  have hr : MPS_READ_UINT24_BE (MPS_WRITE_UINT24_BE v) =
      (((v >>> 16) &&& 0xFF) <<< 16) + (((v >>> 8) &&& 0xFF) <<< 8) +
      (((v >>> 0) &&& 0xFF) <<< 0) := rfl
  constructor
  · rw [hr]
    simp only [Nat.shiftRight_eq_div_pow, and_0xFF_eq_mod, Nat.shiftLeft_eq]
    norm_num
    omega
  · show [(v >>> 16) &&& 0xFF, (v >>> 8) &&& 0xFF, (v >>> 0) &&& 0xFF] = _
    simp only [Nat.shiftRight_eq_div_pow, and_0xFF_eq_mod]
    norm_num

theorem uint32_be_spec (v : Nat) (h : v < 2 ^ 32) :
    MPS_READ_UINT32_BE (MPS_WRITE_UINT32_BE v) = v ∧
    MPS_WRITE_UINT32_BE v =
      [v / 2 ^ 24 % 2 ^ 8, v / 2 ^ 16 % 2 ^ 8, v / 2 ^ 8 % 2 ^ 8,
       v % 2 ^ 8] := by
  have hr : MPS_READ_UINT32_BE (MPS_WRITE_UINT32_BE v) =
      (((v >>> 24) &&& 0xFF) <<< 24) + (((v >>> 16) &&& 0xFF) <<< 16) +
      (((v >>> 8) &&& 0xFF) <<< 8) + (((v >>> 0) &&& 0xFF) <<< 0) := rfl
  constructor
  · rw [hr]
    simp only [Nat.shiftRight_eq_div_pow, and_0xFF_eq_mod, Nat.shiftLeft_eq]
    norm_num
    omega
  · show [(v >>> 24) &&& 0xFF, (v >>> 16) &&& 0xFF, (v >>> 8) &&& 0xFF,
      (v >>> 0) &&& 0xFF] = _
    simp only [Nat.shiftRight_eq_div_pow, and_0xFF_eq_mod]
    norm_num

theorem uint48_be_spec (v : Nat) (h : v < 2 ^ 48) :
    MPS_READ_UINT48_BE (MPS_WRITE_UINT48_BE v) = v ∧
    MPS_WRITE_UINT48_BE v =
      [v / 2 ^ 40 % 2 ^ 8, v / 2 ^ 32 % 2 ^ 8, v / 2 ^ 24 % 2 ^ 8,
       v / 2 ^ 16 % 2 ^ 8, v / 2 ^ 8 % 2 ^ 8, v % 2 ^ 8] := by
  have hr : MPS_READ_UINT48_BE (MPS_WRITE_UINT48_BE v) =
      (((v >>> 40) &&& 0xFF) <<< 40) + (((v >>> 32) &&& 0xFF) <<< 32) +
      (((v >>> 24) &&& 0xFF) <<< 24) + (((v >>> 16) &&& 0xFF) <<< 16) +
      (((v >>> 8) &&& 0xFF) <<< 8) + (((v >>> 0) &&& 0xFF) <<< 0) := rfl
  constructor
  · rw [hr]
    simp only [Nat.shiftRight_eq_div_pow, and_0xFF_eq_mod, Nat.shiftLeft_eq]
    norm_num
    omega
  · show [(v >>> 40) &&& 0xFF, (v >>> 32) &&& 0xFF, (v >>> 24) &&& 0xFF,
      (v >>> 16) &&& 0xFF, (v >>> 8) &&& 0xFF, (v >>> 0) &&& 0xFF] = _
    simp only [Nat.shiftRight_eq_div_pow, and_0xFF_eq_mod]
    norm_num

/-- C7: for every unsigned value of width 8, 16, 24, 32 respectively 48
bits, writing it with `MPS_WRITE_UINTn_BE` and reading it back with
`MPS_READ_UINTn_BE` yields the value again, and the buffer holds the
value in big-endian byte order: the byte at offset `i` of an `n`-byte
buffer is digit `n-1-i` of the value in base 256, so the most significant
byte sits at the lowest address. -/
theorem uint_be_write_read_roundtrip (v : Nat) :
    (v < 2 ^ 8 → MPS_READ_UINT8_BE (MPS_WRITE_UINT8_BE v) = v ∧
      MPS_WRITE_UINT8_BE v = [v % 2 ^ 8]) ∧
    (v < 2 ^ 16 → MPS_READ_UINT16_BE (MPS_WRITE_UINT16_BE v) = v ∧
      MPS_WRITE_UINT16_BE v = [v / 2 ^ 8 % 2 ^ 8, v % 2 ^ 8]) ∧
    (v < 2 ^ 24 → MPS_READ_UINT24_BE (MPS_WRITE_UINT24_BE v) = v ∧
      MPS_WRITE_UINT24_BE v =
        [v / 2 ^ 16 % 2 ^ 8, v / 2 ^ 8 % 2 ^ 8, v % 2 ^ 8]) ∧
    (v < 2 ^ 32 → MPS_READ_UINT32_BE (MPS_WRITE_UINT32_BE v) = v ∧
      MPS_WRITE_UINT32_BE v =
        [v / 2 ^ 24 % 2 ^ 8, v / 2 ^ 16 % 2 ^ 8, v / 2 ^ 8 % 2 ^ 8,
         v % 2 ^ 8]) ∧
    (v < 2 ^ 48 → MPS_READ_UINT48_BE (MPS_WRITE_UINT48_BE v) = v ∧
      MPS_WRITE_UINT48_BE v =
        [v / 2 ^ 40 % 2 ^ 8, v / 2 ^ 32 % 2 ^ 8, v / 2 ^ 24 % 2 ^ 8,
         v / 2 ^ 16 % 2 ^ 8, v / 2 ^ 8 % 2 ^ 8, v % 2 ^ 8]) := by
  refine ⟨?_, uint16_be_spec v, uint24_be_spec v, uint32_be_spec v,
    uint48_be_spec v⟩
  intro h
  refine ⟨rfl, ?_⟩
  show [v] = [v % 2 ^ 8]
  rw [Nat.mod_eq_of_lt (by norm_num at h ⊢; omega)]

/-- C7 (witness): concrete round trips and big-endian layouts at one
value per width. -/
theorem uint_be_write_read_roundtrip_witness :
    (MPS_READ_UINT8_BE (MPS_WRITE_UINT8_BE 0xAB) = 0xAB ∧
      MPS_WRITE_UINT8_BE 0xAB = [0xAB % 2 ^ 8]) ∧
    (MPS_READ_UINT16_BE (MPS_WRITE_UINT16_BE 0xBEEF) = 0xBEEF ∧
      MPS_WRITE_UINT16_BE 0xBEEF =
        [0xBEEF / 2 ^ 8 % 2 ^ 8, 0xBEEF % 2 ^ 8]) ∧
    (MPS_READ_UINT24_BE (MPS_WRITE_UINT24_BE 0xC0FFEE) = 0xC0FFEE ∧
      MPS_WRITE_UINT24_BE 0xC0FFEE =
        [0xC0FFEE / 2 ^ 16 % 2 ^ 8, 0xC0FFEE / 2 ^ 8 % 2 ^ 8,
         0xC0FFEE % 2 ^ 8]) ∧
    (MPS_READ_UINT32_BE (MPS_WRITE_UINT32_BE 0x12345678) = 0x12345678 ∧
      MPS_WRITE_UINT32_BE 0x12345678 =
        [0x12345678 / 2 ^ 24 % 2 ^ 8, 0x12345678 / 2 ^ 16 % 2 ^ 8,
         0x12345678 / 2 ^ 8 % 2 ^ 8, 0x12345678 % 2 ^ 8]) ∧
    (MPS_READ_UINT48_BE (MPS_WRITE_UINT48_BE 0x0123456789AB) =
        0x0123456789AB ∧
      MPS_WRITE_UINT48_BE 0x0123456789AB =
        [0x0123456789AB / 2 ^ 40 % 2 ^ 8, 0x0123456789AB / 2 ^ 32 % 2 ^ 8,
         0x0123456789AB / 2 ^ 24 % 2 ^ 8, 0x0123456789AB / 2 ^ 16 % 2 ^ 8,
         0x0123456789AB / 2 ^ 8 % 2 ^ 8, 0x0123456789AB % 2 ^ 8]) :=
  ⟨(uint_be_write_read_roundtrip 0xAB).1 (by norm_num),
   (uint_be_write_read_roundtrip 0xBEEF).2.1 (by norm_num),
   (uint_be_write_read_roundtrip 0xC0FFEE).2.2.1 (by norm_num),
   (uint_be_write_read_roundtrip 0x12345678).2.2.2.1 (by norm_num),
   (uint_be_write_read_roundtrip 0x0123456789AB).2.2.2.2 (by norm_num)⟩

/-! ## The Layer 2 state invariants -/

/-- The conjunction of the Layer 2 state invariants under proof, mirroring
the macros `MPS_L2_INV_OUT_ACTIVE_IS_VALID`, the specification's
queueing-is-pausable invariant, `MPS_L2_INV_IF_CLEARING_NO_WRITE`,
`MPS_L2_INV_IF_FLUSH_NO_WRITE`, `MPS_L2_INV_IN_READERS_PERMUTATION`,
`MPS_L2_INV_IN_PAUSED_IS_PAUSABLE`,
`MPS_L2_INV_IN_NO_ACTIVE_PAUSED_NO_OVERLAP`,
`MPS_L2_INV_EPOCH_WINDOW_VALID` and `MPS_L2_INV_NEXT_EPOCH_BOUNDS` of
layer2.h. -/
def L2Inv (s : L2State) : Prop :=
  (s.outState ≠ .unset → s.conf.type_flag.testBit s.outType = true) ∧
  (s.outState = .queueing → s.conf.pause_flag.testBit s.outType = true) ∧
  ((s.clearing = true ∨ s.flush = true) →
    s.outState = .unset ∨ s.outState = .queueing) ∧
  s.activeIdx ≠ s.pausedIdx ∧
  (s.pausedState = .paused →
    s.conf.pause_flag.testBit (s.readerType s.pausedIdx) = true ∧
    s.readerType s.pausedIdx ≠ s.readerType s.activeIdx) ∧
  (0 ≤ s.epochBase ∧
   s.epochBase + (MPS_L2_EPOCH_WINDOW_SIZE : Int) ≤ MBEDTLS_MPS_EPOCH_MAX ∧
   s.epochNext ≤ MPS_L2_EPOCH_WINDOW_SIZE)

/-- Helper: every reachable Layer 2 state satisfies the invariant
conjunction, by induction over the transition relation. -/
theorem l2Inv_of_reachable {s : L2State} (h : L2Reachable s) : L2Inv s := by
  induction h with
  | base => unfold L2Inv; decide
  | @step s0 s2 hr hstep ih =>
      unfold L2Inv at ih ⊢
      obtain ⟨ih1, ih2, ih3, ih4, ih5, ih6⟩ := ih
      cases hstep with
      | configAddType t p m e hok =>
          refine ⟨?_, ?_, ih3, ih4, ?_, ih6⟩
          · intro hne
            have hb := ih1 hne
            show (mps_l2_config_add_type s0.conf t p m e).2.type_flag.testBit
              s0.outType = true
            rw [add_type_ok_fields hok]
            simp only [Nat.testBit_or, hb, Bool.true_or]
          · intro hq
            have hb := ih2 hq
            show (mps_l2_config_add_type s0.conf t p m e).2.pause_flag.testBit
              s0.outType = true
            rw [add_type_ok_fields hok]
            simp only [Nat.testBit_or, hb, Bool.true_or]
          · intro hp
            obtain ⟨hb, hne⟩ := ih5 hp
            refine ⟨?_, hne⟩
            show (mps_l2_config_add_type s0.conf t p m e).2.pause_flag.testBit
              (s0.readerType s0.pausedIdx) = true
            rw [add_type_ok_fields hok]
            simp only [Nat.testBit_or, hb, Bool.true_or]
      | writeStartOk t hs ht =>
          refine ⟨fun _ => ht, ?_, ?_, ih4, ih5, ih6⟩
          · intro hq; exact absurd hq (by simp)
          · intro hcf; exact absurd hcf (by simp)
      | writeStartPack hs hm =>
          refine ⟨fun _ => ih1 (by rw [hs]; simp), ?_, ?_, ih4, ih5, ih6⟩
          · intro hq; exact absurd hq (by simp)
          · intro hcf; exact absurd (ih3 hcf) (by rw [hs]; simp)
      | writeStartBlockedDispatch hs =>
          refine ⟨?_, ?_, fun _ => Or.inl rfl, ih4, ih5, ih6⟩
          · intro hne; exact absurd rfl hne
          · intro hq; exact absurd hq (by simp)
      | writeStartBlockedClear hs =>
          exact ⟨ih1, ih2, fun _ => hs, ih4, ih5, ih6⟩
      | writeDoneDispatch c hs =>
          refine ⟨?_, ?_, fun _ => Or.inl rfl, ih4, ih5, ih6⟩
          · intro hne; exact absurd rfl hne
          · intro hq; exact absurd hq (by simp)
      | writeDonePause hs hp =>
          refine ⟨fun _ => ih1 (by rw [hs]; simp), fun _ => hp,
            fun _ => Or.inr rfl, ih4, ih5, ih6⟩
      | writeDonePack hs hm =>
          refine ⟨fun _ => ih1 (by rw [hs]; simp), ?_, ?_, ih4, ih5, ih6⟩
          · intro hq; exact absurd hq (by simp)
          · intro hcf; exact absurd (ih3 hcf) (by rw [hs]; simp)
      | writeFlushStart hs =>
          exact ⟨ih1, ih2, fun _ => hs, ih4, ih5, ih6⟩
      | writeFlushOk hs =>
          refine ⟨?_, ?_, fun _ => Or.inl rfl, ih4, ih5, ih6⟩
          · intro hne; exact absurd rfl hne
          · intro hq; exact absurd hq (by simp)
      | readStartReuse hs =>
          exact ⟨ih1, ih2, ih3, ih4, ih5, ih6⟩
      | readStartFresh t hs ht hne =>
          refine ⟨ih1, ih2, ih3, ih4, ?_, ih6⟩
          intro hp
          obtain ⟨hb, _⟩ := ih5 hp
          have hidx : s0.pausedIdx ≠ s0.activeIdx := fun he => ih4 he.symm
          refine ⟨?_, ?_⟩
          · show s0.conf.pause_flag.testBit
              (Function.update s0.readerType s0.activeIdx t s0.pausedIdx) = true
            rw [Function.update_noteq hidx]
            exact hb
          · show Function.update s0.readerType s0.activeIdx t s0.pausedIdx ≠
              Function.update s0.readerType s0.activeIdx t s0.activeIdx
            rw [Function.update_noteq hidx, Function.update_same]
            exact hne hp
      | readStartResume hs hp =>
          refine ⟨ih1, ih2, ih3, fun he => ih4 he.symm, ?_, ih6⟩
          intro hq; exact absurd hq (by simp)
      | readStartSwap t hs hp hpa ht hpt hne =>
          refine ⟨ih1, ih2, ih3, fun he => ih4 he.symm, ?_, ih6⟩
          intro _
          have hidx : s0.activeIdx ≠ s0.pausedIdx := ih4
          refine ⟨?_, ?_⟩
          · show s0.conf.pause_flag.testBit
              (Function.update s0.readerType s0.pausedIdx t s0.activeIdx) = true
            rw [Function.update_noteq hidx]
            exact hpa
          · show Function.update s0.readerType s0.pausedIdx t s0.activeIdx ≠
              Function.update s0.readerType s0.pausedIdx t s0.pausedIdx
            rw [Function.update_noteq hidx, Function.update_same]
            exact fun he => hne he.symm
      | readDoneConsumed hs =>
          exact ⟨ih1, ih2, ih3, ih4, ih5, ih6⟩
      | readDonePack hs hm =>
          exact ⟨ih1, ih2, ih3, ih4, ih5, ih6⟩
      | epochAdd hn =>
          refine ⟨ih1, ih2, ih3, ih4, ih5, ih6.1, ih6.2.1, ?_⟩
          show s0.epochNext + 1 ≤ MPS_L2_EPOCH_WINDOW_SIZE
          omega
      | epochAddSlide k hn hk1 hk2 hb =>
          refine ⟨ih1, ih2, ih3, ih4, ih5, ?_, ?_, ?_⟩
          · show (0 : Int) ≤ s0.epochBase + (k : Int)
            have := ih6.1
            omega
          · show s0.epochBase + (k : Int) + (MPS_L2_EPOCH_WINDOW_SIZE : Int) ≤
              MBEDTLS_MPS_EPOCH_MAX
            omega
          · show MPS_L2_EPOCH_WINDOW_SIZE - k + 1 ≤ MPS_L2_EPOCH_WINDOW_SIZE
            omega

/-! ## Reachability of the sample states -/

theorem l2StateDemo1_reachable : L2Reachable l2StateDemo1 :=
  L2Reachable.step L2Reachable.base
    (L2Step.configAddType mps_l2_init 22 1 1 0 (by decide))

theorem l2StateDemo2_reachable : L2Reachable l2StateDemo2 :=
  L2Reachable.step l2StateDemo1_reachable
    (L2Step.writeStartOk l2StateDemo1 22 (Or.inl rfl) (by decide))

theorem l2StateDemo3_reachable : L2Reachable l2StateDemo3 :=
  L2Reachable.step l2StateDemo2_reachable
    (L2Step.writeDonePause l2StateDemo2 rfl (by decide))

theorem l2StateDemo4_reachable : L2Reachable l2StateDemo4 :=
  L2Reachable.step l2StateDemo1_reachable
    (L2Step.configAddType l2StateDemo1 23 1 0 0 (by decide))

theorem l2StateDemo5_reachable : L2Reachable l2StateDemo5 :=
  L2Reachable.step l2StateDemo4_reachable
    (L2Step.readStartFresh l2StateDemo4 22 rfl (by decide) (by decide))

theorem l2StateDemo6_reachable : L2Reachable l2StateDemo6 :=
  L2Reachable.step l2StateDemo5_reachable
    (L2Step.readDoneConsumed l2StateDemo5 rfl)

theorem l2StateDemo7_reachable : L2Reachable l2StateDemo7 :=
  L2Reachable.step l2StateDemo6_reachable
    (L2Step.readStartSwap l2StateDemo6 23 rfl rfl (by decide) (by decide)
      (by decide) (by decide))

theorem l2StateDemo8_reachable : L2Reachable l2StateDemo8 :=
  L2Reachable.step l2StateDemo2_reachable
    (L2Step.epochAdd l2StateDemo2 (by decide))

theorem fin2_perm : ∀ a b : Fin 2, a ≠ b →
    (a = 0 ∧ b = 1) ∨ (a = 1 ∧ b = 0) := by decide

/-! ## Claims about the reachable Layer 2 states -/

/-- C2: in every reachable Layer 2 state, if the outgoing writer state is
not UNSET then the writer's content type lies in `type_flag`
(`MPS_L2_INV_OUT_ACTIVE_IS_VALID`), and if it is QUEUEING then the type
additionally lies in `pause_flag` (the queueing-is-pausable invariant as
the specification states it). -/
theorem reachable_out_writer_type_flags {s : L2State} (h : L2Reachable s) :
    (s.outState ≠ .unset → s.conf.type_flag.testBit s.outType = true) ∧
    (s.outState = .queueing → s.conf.pause_flag.testBit s.outType = true) :=
  ⟨(l2Inv_of_reachable h).1, (l2Inv_of_reachable h).2.1⟩

/-- C2 (witness): in the reachable state `l2StateDemo3` the writer is
QUEUEING on type 22, which is registered and pausable. -/
theorem reachable_out_writer_type_flags_witness :
    l2StateDemo3.conf.type_flag.testBit l2StateDemo3.outType = true ∧
    l2StateDemo3.conf.pause_flag.testBit l2StateDemo3.outType = true :=
  ⟨(reachable_out_writer_type_flags l2StateDemo3_reachable).1 (by decide),
   (reachable_out_writer_type_flags l2StateDemo3_reachable).2 (by decide)⟩

/-- C4: in every reachable Layer 2 state, if `clearing` or `flush` is
set, the outgoing writer state is UNSET or QUEUEING — a caller is never
suspended mid-write waiting on the transport
(`MPS_L2_INV_IF_CLEARING_NO_WRITE` / `MPS_L2_INV_IF_FLUSH_NO_WRITE`). -/
theorem reachable_clearing_flush_no_write {s : L2State}
    (h : L2Reachable s) (hcf : s.clearing = true ∨ s.flush = true) :
    s.outState = .unset ∨ s.outState = .queueing :=
  (l2Inv_of_reachable h).2.2.1 hcf

/-- C4 (witness): `l2StateDemo3` has `flush` set, and indeed its writer
state is QUEUEING. -/
theorem reachable_clearing_flush_no_write_witness :
    l2StateDemo3.outState = .unset ∨ l2StateDemo3.outState = .queueing :=
  reachable_clearing_flush_no_write l2StateDemo3_reachable
    (Or.inr (by decide))

/-- C5: in every reachable Layer 2 state, the active/paused reader
pointers are a permutation of the two fixed reader slots
(`MPS_L2_INV_IN_READERS_PERMUTATION`), and a PAUSED paused reader has a
content type in `pause_flag` that differs from the active reader's type
(`MPS_L2_INV_IN_PAUSED_IS_PAUSABLE` /
`MPS_L2_INV_IN_NO_ACTIVE_PAUSED_NO_OVERLAP`). -/
theorem reachable_paused_reader_valid {s : L2State} (h : L2Reachable s) :
    ((s.activeIdx = 0 ∧ s.pausedIdx = 1) ∨
     (s.activeIdx = 1 ∧ s.pausedIdx = 0)) ∧
    (s.pausedState = .paused →
      s.conf.pause_flag.testBit (s.readerType s.pausedIdx) = true ∧
      s.readerType s.pausedIdx ≠ s.readerType s.activeIdx) := by
  have hinv := l2Inv_of_reachable h
  exact ⟨fin2_perm _ _ hinv.2.2.2.1, hinv.2.2.2.2.1⟩

/-- C5 (witness): in the reachable state `l2StateDemo7` the slots are
swapped, the paused reader holds the pausable type 22, and the active
reader holds the different type 23. -/
theorem reachable_paused_reader_valid_witness :
    ((l2StateDemo7.activeIdx = 0 ∧ l2StateDemo7.pausedIdx = 1) ∨
     (l2StateDemo7.activeIdx = 1 ∧ l2StateDemo7.pausedIdx = 0)) ∧
    (l2StateDemo7.conf.pause_flag.testBit
        (l2StateDemo7.readerType l2StateDemo7.pausedIdx) = true ∧
      l2StateDemo7.readerType l2StateDemo7.pausedIdx ≠
        l2StateDemo7.readerType l2StateDemo7.activeIdx) :=
  ⟨(reachable_paused_reader_valid l2StateDemo7_reachable).1,
   (reachable_paused_reader_valid l2StateDemo7_reachable).2 (by decide)⟩

/-- C8: in every reachable Layer 2 state, the epoch window satisfies
`0 ≤ epochs.base < MBEDTLS_MPS_EPOCH_MAX`,
`MBEDTLS_MPS_EPOCH_MAX - epochs.base ≥ MPS_L2_EPOCH_WINDOW_SIZE` and
`epochs.next ≤ MPS_L2_EPOCH_WINDOW_SIZE`, with
`MBEDTLS_MPS_EPOCH_MAX = 100` and `MPS_L2_EPOCH_WINDOW_SIZE = 2` in this
build (`MPS_L2_INV_EPOCH_WINDOW_VALID` / `MPS_L2_INV_NEXT_EPOCH_BOUNDS`). -/
theorem reachable_epoch_window_bounds {s : L2State} (h : L2Reachable s) :
    0 ≤ s.epochBase ∧ s.epochBase < MBEDTLS_MPS_EPOCH_MAX ∧
    (MPS_L2_EPOCH_WINDOW_SIZE : Int) ≤
      MBEDTLS_MPS_EPOCH_MAX - s.epochBase ∧
    s.epochNext ≤ MPS_L2_EPOCH_WINDOW_SIZE ∧
    MBEDTLS_MPS_EPOCH_MAX = 100 ∧ MPS_L2_EPOCH_WINDOW_SIZE = 2 := by
  obtain ⟨h61, h62, h63⟩ := (l2Inv_of_reachable h).2.2.2.2.2
  refine ⟨h61, ?_, by omega, h63, rfl, rfl⟩
  simp only [MBEDTLS_MPS_EPOCH_MAX, MPS_L2_EPOCH_WINDOW_SIZE] at h62 ⊢
  omega

/-- C8 (witness): the bounds hold in the reachable state `l2StateDemo8`,
whose epoch window holds one epoch. -/
theorem reachable_epoch_window_bounds_witness :
    0 ≤ l2StateDemo8.epochBase ∧
    l2StateDemo8.epochBase < MBEDTLS_MPS_EPOCH_MAX ∧
    (MPS_L2_EPOCH_WINDOW_SIZE : Int) ≤
      MBEDTLS_MPS_EPOCH_MAX - l2StateDemo8.epochBase ∧
    l2StateDemo8.epochNext ≤ MPS_L2_EPOCH_WINDOW_SIZE ∧
    MBEDTLS_MPS_EPOCH_MAX = 100 ∧ MPS_L2_EPOCH_WINDOW_SIZE = 2 :=
  reachable_epoch_window_bounds l2StateDemo8_reachable

end MPS
